import Mathlib

/-!
Verification development for the YouTube-to-blog workflow
(`main.py`, `utils.py`, `config.py`, `cli.py`).

The Python code is shallowly embedded: strings are Lean `String`
(lists of unicode scalars, matching Python code points), dict-shaped
partial state updates are an explicit `Update` record merged by
`applyUpdate`, and every external collaborator (the Groq LLM, the
Tavily search, the YouTube transcript loader) is an oracle supplying
the outcome of each call (`Except.error` models a raised exception,
`Except.ok` a returned value).
-/

set_option linter.unusedVariables false

namespace YTBlog

/-! ### Python string primitives -/

/-- Python `pat in hay` on lists of characters. -/
def listIn (pat : List Char) : List Char → Bool
  | [] => pat.isEmpty
  | c :: t => pat.isPrefixOf (c :: t) || listIn pat t

/-- Python substring test `pat in hay`. -/
def strIn (pat hay : String) : Bool :=
  listIn pat.data hay.data

/-- Python `str.strip()` on a list of characters. -/
def stripList (l : List Char) : List Char :=
  ((l.dropWhile Char.isWhitespace).reverse.dropWhile Char.isWhitespace).reverse

/-- Python `str.strip()`. -/
def pyStrip (s : String) : String :=
  ⟨stripList s.data⟩

/-- Python `str.lower()` (ASCII case folding suffices for the routing labels). -/
def pyLower (s : String) : String :=
  ⟨s.data.map Char.toLower⟩

/-- Python truthiness of a string: `bool(s)` is true iff `s` is non-empty. -/
def pyBool (s : String) : Bool :=
  s != ""

/-- Python `sep.join(parts)`. -/
def pyJoin (sep : String) (parts : List String) : String :=
  ⟨List.intercalate sep.data (parts.map String.data)⟩

/-! ### utils.clean_text -/

/-- Accumulator pass implementing Python `str.split()` with no argument:
splits on runs of whitespace and never yields an empty piece. -/
def pyWordsAux : List Char → List Char → List (List Char)
  | [], acc => if acc.isEmpty then [] else [acc.reverse]
  | c :: rest, acc =>
    if c.isWhitespace then
      if acc.isEmpty then pyWordsAux rest [] else acc.reverse :: pyWordsAux rest []
    else pyWordsAux rest (c :: acc)

/-- Python `text.split()` (whitespace words). -/
def pyWords (l : List Char) : List (List Char) :=
  pyWordsAux l []

/-- Python `' '.join(words)` at the character level. -/
def joinSpace : List (List Char) → List Char
  | [] => []
  | [w] => w
  | w :: ws => w ++ ' ' :: joinSpace ws

/-- Python `text.replace(three newlines, two newlines)`: one left-to-right
pass over non-overlapping occurrences. -/
def collapse3NL : List Char → List Char
  | [] => []
  | [c] => [c]
  | [c, d] => [c, d]
  | c :: d :: e :: rest =>
    if c = '\n' && d = '\n' && e = '\n' then '\n' :: '\n' :: collapse3NL rest
    else c :: collapse3NL (d :: e :: rest)

/-- `utils.clean_text`: join the whitespace-split words with single spaces,
replace triple newlines by double newlines, and strip. -/
def clean_text (text : String) : String :=
  if text.data.isEmpty then ""
  else ⟨stripList (collapse3NL (joinSpace (pyWords text.data)))⟩

/-! ### utils.validate_youtube_url (urllib.parse.urlparse model) -/

/-- Characters `urllib.parse` accepts inside a URL scheme. -/
def schemeChar (c : Char) : Bool :=
  c.isAlphanum || c = '+' || c = '-' || c = '.'

/-- The scheme-splitting step of `urllib.parse.urlparse`: when the text up to
the first colon is a well-formed scheme, return it lowercased together with
the remainder; otherwise the scheme is empty and the text is untouched. -/
def pySplitScheme (l : List Char) : List Char × List Char :=
  match l.findIdx? (fun c => c = ':') with
  | none => ([], l)
  | some i =>
    if 0 < i ∧ (l.take i).all schemeChar ∧ (l.headD ' ').isAlpha then
      ((l.take i).map Char.toLower, l.drop (i + 1))
    else ([], l)

/-- The netloc step of `urllib.parse.urlparse`: after a leading double slash,
the authority runs until a slash, question mark or number sign. -/
def pyNetlocOf : List Char → List Char
  | '/' :: '/' :: r => r.takeWhile (fun c => !(c = '/' || c = '?' || c = '#'))
  | _ => []

/-- `urlparse(url).scheme`. -/
def urlparse_scheme (url : String) : String :=
  ⟨(pySplitScheme url.data).1⟩

/-- `urlparse(url).netloc`. -/
def urlparse_netloc (url : String) : String :=
  ⟨pyNetlocOf (pySplitScheme url.data).2⟩

/-- `utils.validate_youtube_url`. -/
def validate_youtube_url (url : String) : Bool :=
  (urlparse_scheme url == "http" || urlparse_scheme url == "https") &&
  (urlparse_netloc url == "www.youtube.com" || urlparse_netloc url == "youtube.com" ||
    urlparse_netloc url == "youtu.be") &&
  (strIn "watch?v=" url || strIn "youtu.be/" url)

/-- `cli.validate_input`: an empty URL or one failing `validate_youtube_url`
is rejected before any workflow object exists. -/
def validate_input (url : String) : Bool :=
  if url = "" then false else validate_youtube_url url

/-! ### config.ProcessingConfig -/

/-- `config.ProcessingConfig` with its dataclass defaults. -/
structure ProcessingConfig where
  max_transcript_length : Nat := 10000
  max_search_results : Nat := 3
  chunk_size_seconds : Nat := 60
  keyword_extraction_limit : Nat := 500
deriving DecidableEq

/-- The configuration built by `AppConfig()`. -/
def defaultProcessing : ProcessingConfig := {}

/-! ### main.SupervisorState

`SupervisorState` extends langgraph `MessagesState`; only message contents
matter to the control flow, so `messages` is the list of message texts.
Keys the caller never passes start absent, which `state.get(key, d)` reads
as the default `d`; the empty string stands for an absent string key, and
`task_complete` for an absent boolean key, exactly as the code reads them. -/
structure SupervisorState where
  messages : List String := []
  next_agent : String := ""
  transcript_data : String := ""
  analyzed_data : String := ""
  final_blog : String := ""
  task_complete : Bool := false
  current_task : String := ""
  input_url : String := ""
  error_message : String := ""
deriving DecidableEq

/-- The dict each agent returns from its node: a partial update. `none`
stands for a key the dict does not carry. -/
structure Update where
  message : Option String := none
  next_agent : Option String := none
  current_task : Option String := none
  transcript_data : Option String := none
  analyzed_data : Option String := none
  final_blog : Option String := none
  error_message : Option String := none
deriving DecidableEq

/-- langgraph merges a node's returned dict into the state: each present key
overwrites its slot, and `add_messages` appends the message. -/
def applyUpdate (s : SupervisorState) (u : Update) : SupervisorState :=
  { s with
    messages := s.messages ++ u.message.toList
    next_agent := u.next_agent.getD s.next_agent
    current_task := u.current_task.getD s.current_task
    transcript_data := u.transcript_data.getD s.transcript_data
    analyzed_data := u.analyzed_data.getD s.analyzed_data
    final_blog := u.final_blog.getD s.final_blog
    error_message := u.error_message.getD s.error_message }

/-! ### main.SupervisorAgent -/

/-- `SupervisorAgent.decide_next_agent`. The argument `llmResult` is the
outcome of `chain.invoke` (the supervisor LLM call): `Except.ok` carries the
content of the response, `Except.error` the text of a raised exception. -/
def decide_next_agent (llmResult : Except String String)
    (state : SupervisorState) : Update :=
  let task := state.messages.getLastD "No Task"
  let has_transcript := pyBool state.transcript_data
  let has_analyzed := pyBool state.analyzed_data
  let has_blog := pyBool state.final_blog
  match llmResult with
  | .error e =>
    { message := some ("Supervisor: Error occurred - " ++ e)
      next_agent := some "end"
      error_message := some e }
  | .ok content =>
    let decision_text := pyLower (pyStrip content)
    if strIn "done" decision_text || has_blog then
      { message := some "Supervisor: All tasks completed successfully! 🎉"
        next_agent := some "end"
        current_task := some task }
    else if strIn "transcriptor" decision_text || !has_transcript then
      { message := some "Supervisor: Assigning Transcriptor to extract video transcript"
        next_agent := some "transcriptor"
        current_task := some task }
    else if strIn "analyzer" decision_text || !has_analyzed then
      { message := some "Supervisor: Assigning Analyzer to research relevant topics"
        next_agent := some "analyzer"
        current_task := some task }
    else if strIn "writer" decision_text || !has_blog then
      { message := some "Supervisor: Assigning Writer to create SEO-optimized blog"
        next_agent := some "writer"
        current_task := some task }
    else
      { message := some "Supervisor: Task appears to be complete"
        next_agent := some "end"
        current_task := some task }

/-! ### main.TranscriptorAgent -/

/-- `TranscriptorAgent.extract_transcript`. The argument `loadResult` is the
outcome of `loader.load()`: `Except.ok` carries the `page_content` of each
chunk in temporal order, `Except.error` the text of a raised exception. -/
def extract_transcript (loadResult : Except String (List String))
    (state : SupervisorState) : Update :=
  let url := state.input_url
  if !validate_youtube_url url then
    let error_msg := "Invalid YouTube URL: " ++ url
    { message := some ("Transcriptor: " ++ error_msg)
      error_message := some error_msg
      next_agent := some "end" }
  else
    match loadResult with
    | .error e =>
      let error_msg := "Failed to extract transcript: " ++ e
      { message := some ("Transcriptor: " ++ error_msg)
        error_message := some error_msg
        next_agent := some "end" }
    | .ok transcript_docs =>
      let transcript_text := clean_text (pyJoin "\n\n" transcript_docs)
      if !pyBool (pyStrip transcript_text) then
        let error_msg := "No transcript found for this video"
        { message := some ("Transcriptor: " ++ error_msg)
          error_message := some error_msg
          next_agent := some "end" }
      else
        { transcript_data := some transcript_text
          message := some "Transcriptor: Successfully extracted video transcript"
          next_agent := some "supervisor" }

/-! ### main.AnalyzerAgent -/

/-- `AnalyzerAgent.analyze_content`. `keywordResult` is the outcome of the
keyword-extraction LLM call, `searchResult` the outcome of the Tavily search
(the `content` of each result); an exception in either call lands in the
common `except` clause. -/
def analyze_content (cfg : ProcessingConfig)
    (keywordResult : Except String String)
    (searchResult : Except String (List String))
    (state : SupervisorState) : Update :=
  let transcript := state.transcript_data
  let task := state.current_task
  if !pyBool transcript then
    let error_msg := "No transcript available for analysis"
    { message := some ("Analyzer: " ++ error_msg)
      error_message := some error_msg
      next_agent := some "end" }
  else
    let transcript_for_keywords :=
      if transcript.data.length > cfg.keyword_extraction_limit then
        (⟨transcript.data.take cfg.keyword_extraction_limit⟩ : String)
      else transcript
    match keywordResult with
    | .error e =>
      let error_msg := "Analysis failed: " ++ e
      { message := some ("Analyzer: " ++ error_msg)
        error_message := some error_msg
        next_agent := some "end" }
    | .ok keywordContent =>
      let keywords := pyStrip keywordContent
      match searchResult with
      | .error e =>
        let error_msg := "Analysis failed: " ++ e
        { message := some ("Analyzer: " ++ error_msg)
          error_message := some error_msg
          next_agent := some "end" }
      | .ok results =>
        let result_text :=
          if results.isEmpty then "No additional web content found for this topic."
          else pyJoin "\n\n" results
        { message := some "Analyzer: Web research and analysis completed"
          analyzed_data := some result_text
          next_agent := some "supervisor" }

/-! ### main.WriterAgent -/

/-- The transcript truncation inside `WriterAgent.write_blog`:
`transcript[:max_transcript_length]` when the transcript is longer. -/
def writerTruncate (maxLen : Nat) (t : String) : String :=
  if t.data.length > maxLen then ⟨t.data.take maxLen⟩ else t

/-- `WriterAgent.write_blog`. `llmResult` is the outcome of the blog LLM
call. -/
def write_blog (cfg : ProcessingConfig) (llmResult : Except String String)
    (state : SupervisorState) : Update :=
  let transcript := state.transcript_data
  let analyzed_data := state.analyzed_data
  let task := state.current_task
  if !pyBool transcript then
    let error_msg := "No transcript available for blog writing"
    { message := some ("Writer: " ++ error_msg)
      error_message := some error_msg
      next_agent := some "end" }
  else
    let transcript := writerTruncate cfg.max_transcript_length transcript
    match llmResult with
    | .error e =>
      let error_msg := "Blog writing failed: " ++ e
      { message := some ("Writer: " ++ error_msg)
        error_message := some error_msg
        next_agent := some "end" }
    | .ok blog_content =>
      if !pyBool (pyStrip blog_content) then
        let error_msg := "Failed to generate blog content"
        { message := some ("Writer: " ++ error_msg)
          error_message := some error_msg
          next_agent := some "end" }
      else
        { message := some "Writer: SEO-optimized blog post created successfully"
          next_agent := some "end"
          final_blog := some blog_content }

/-! ### main.BlogWorkflow -/

/-- `BlogWorkflow._router`: langgraph END is the string two-underscores
end two-underscores. -/
def _router (state : SupervisorState) : String :=
  let next_agent := if state.next_agent = "" then "supervisor" else state.next_agent
  if next_agent == "end" || state.task_complete then "__end__"
  else next_agent

/-- One oracle per external call site, indexed by the number of graph steps
already executed, so that every node invocation may receive a different
outcome. -/
structure Oracle where
  supervisorLLM : Nat → Except String String
  transcriptLoad : Nat → Except String (List String)
  keywordLLM : Nat → Except String String
  searchCall : Nat → Except String (List String)
  writerLLM : Nat → Except String String

/-- The dict returned by running one named node of the compiled graph. -/
def nodeUpdate (cfg : ProcessingConfig) (o : Oracle) (i : Nat)
    (node : String) (state : SupervisorState) : Update :=
  if node = "supervisor" then decide_next_agent (o.supervisorLLM i) state
  else if node = "transcriptor" then extract_transcript (o.transcriptLoad i) state
  else if node = "analyzer" then analyze_content cfg (o.keywordLLM i) (o.searchCall i) state
  else if node = "writer" then write_blog cfg (o.writerLLM i) state
  else {}

/-- langgraph raises `GraphRecursionError` with this text when the default
recursion limit of 25 super-steps is exceeded (modelled from the langgraph
runtime, which `graph.invoke` delegates to). -/
def graphRecursionMsg : String :=
  "Recursion limit of 25 reached without hitting a stop condition."

/-- langgraph default `recursion_limit`. -/
def recursionLimit : Nat := 25

/-- The compiled graph loop: run the pending node, merge its update, follow
the conditional edge chosen by `_router`, and stop at END; running out of
the recursion limit raises `GraphRecursionError`. -/
def runGraph (cfg : ProcessingConfig) (o : Oracle) :
    Nat → Nat → String → SupervisorState → Except String SupervisorState
  | 0, _, _, _ => .error graphRecursionMsg
  | fuel + 1, i, node, state =>
    let state' := applyUpdate state (nodeUpdate cfg o i node state)
    let nxt := _router state'
    if nxt = "__end__" then .ok state'
    else runGraph cfg o fuel (i + 1) nxt state'

/-- The state `graph.invoke` starts from in `BlogWorkflow.process_video`:
only `input_url` and the human task message are passed in. -/
def initState (url task : String) : SupervisorState :=
  { input_url := url, messages := [task] }

/-- `BlogWorkflow.process_video`: invoke the graph from the `supervisor`
entry point; a raised exception is caught and returned as a dict carrying
`error_message`, an empty `final_blog` and a failure message. -/
def process_video (cfg : ProcessingConfig) (o : Oracle)
    (url : String) (task : String) : SupervisorState :=
  match runGraph cfg o recursionLimit 0 "supervisor" (initState url task) with
  | .ok s => s
  | .error e =>
    { error_message := e
      final_blog := ""
      messages := ["Workflow failed: " ++ e] }

/-- A constant-outcome oracle: every supervisor call answers `adv`, every
transcript load returns `chunks`, every keyword call returns `"keywords"`,
every search returns `search`, every blog call returns `blog`. -/
def mkOracle (adv : String) (chunks : List String)
    (search : List String) (blog : String) : Oracle where
  supervisorLLM := fun _ => .ok adv
  transcriptLoad := fun _ => .ok chunks
  keywordLLM := fun _ => .ok "keywords"
  searchCall := fun _ => .ok search
  writerLLM := fun _ => .ok blog

/-! ### Helper lemmas: clean_text -/

/-- Every character of every word of `pyWordsAux` is non-whitespace, given
the accumulator holds only non-whitespace characters. -/
theorem pyWordsAux_no_ws :
    ∀ (l acc : List Char), (∀ c ∈ acc, c.isWhitespace = false) →
      ∀ w ∈ pyWordsAux l acc, ∀ c ∈ w, c.isWhitespace = false := by
  intro l
  induction l with
  | nil =>
    intro acc hacc w hw c hc
    unfold pyWordsAux at hw
    split at hw
    · simp at hw
    · simp only [List.mem_singleton] at hw
      subst hw
      exact hacc c (List.mem_reverse.1 hc)
  | cons a rest ih =>
    intro acc hacc w hw c hc
    unfold pyWordsAux at hw
    split at hw
    · split at hw
      · exact ih [] (by simp) w hw c hc
      · rcases List.mem_cons.1 hw with rfl | hw
        · exact hacc c (List.mem_reverse.1 hc)
        · exact ih [] (by simp) w hw c hc
    · refine ih (a :: acc) ?_ w hw c hc
      intro x hx
      rcases List.mem_cons.1 hx with rfl | hx
      · simp_all
      · exact hacc x hx

/-- A character of a space-join is a space or comes from one of the words. -/
theorem mem_joinSpace :
    ∀ (ws : List (List Char)) (c : Char), c ∈ joinSpace ws →
      c = ' ' ∨ ∃ w ∈ ws, c ∈ w := by
  intro ws
  induction ws with
  | nil => simp [joinSpace]
  | cons w ws ih =>
    cases ws with
    | nil =>
      intro c hc
      right
      exact ⟨w, by simp, by simpa [joinSpace] using hc⟩
    | cons w2 ws2 =>
      intro c hc
      simp only [joinSpace] at hc
      rcases List.mem_append.1 hc with h | h
      · right; exact ⟨w, by simp, h⟩
      · rcases List.mem_cons.1 h with rfl | h
        · exact Or.inl rfl
        · rcases ih c h with h' | ⟨x, hx, hcx⟩
          · exact Or.inl h'
          · right; exact ⟨x, List.mem_cons_of_mem w hx, hcx⟩

/-- The triple-newline replacement introduces no character. -/
theorem mem_collapse3NL (c : Char) : ∀ l, c ∈ collapse3NL l → c ∈ l := by
  intro l
  induction l using collapse3NL.induct with
  | case1 => simp [collapse3NL]
  | case2 a => simp [collapse3NL]
  | case3 a b => simp [collapse3NL]
  | case4 a b e rest h ih =>
    simp only [collapse3NL, if_pos h]
    intro hc
    rcases List.mem_cons.1 hc with rfl | hc
    · simp_all
    · rcases List.mem_cons.1 hc with rfl | hc
      · simp_all
      · simp [ih hc]
  | case5 a b e rest h ih =>
    simp only [collapse3NL, if_neg h]
    intro hc
    rcases List.mem_cons.1 hc with rfl | hc
    · simp
    · have := ih hc
      simp_all [List.mem_cons]

/-- Stripping introduces no character. -/
theorem mem_stripList (c : Char) (l : List Char) (h : c ∈ stripList l) : c ∈ l := by
  unfold stripList at h
  rw [List.mem_reverse] at h
  have h' := ((List.dropWhile_suffix _).sublist).subset h
  rw [List.mem_reverse] at h'
  exact ((List.dropWhile_suffix _).sublist).subset h'

/-! ### Helper lemmas: update discipline of the agents -/

/-- Supervisor updates: an error, or a blog already present, always comes
with `next_agent = end`, and no branch sets both error and blog. -/
theorem supervisor_guard (r : Except String String) (s : SupervisorState) :
    ((decide_next_agent r s).error_message.isSome →
      (decide_next_agent r s).next_agent = some "end") ∧
    ((decide_next_agent r s).final_blog.isSome →
      (decide_next_agent r s).next_agent = some "end") ∧
    ((decide_next_agent r s).error_message = none ∨
      (decide_next_agent r s).final_blog = none) := by
  cases r with
  | error e => simp [decide_next_agent]
  | ok content =>
    simp only [decide_next_agent]
    split_ifs <;> simp

/-- Transcriptor updates obey the same discipline. -/
theorem transcriptor_guard (r : Except String (List String)) (s : SupervisorState) :
    ((extract_transcript r s).error_message.isSome →
      (extract_transcript r s).next_agent = some "end") ∧
    ((extract_transcript r s).final_blog.isSome →
      (extract_transcript r s).next_agent = some "end") ∧
    ((extract_transcript r s).error_message = none ∨
      (extract_transcript r s).final_blog = none) := by
  cases r with
  | error e => simp only [extract_transcript]; split_ifs <;> simp
  | ok docs => simp only [extract_transcript]; split_ifs <;> simp

/-- Analyzer updates obey the same discipline. -/
theorem analyzer_guard (cfg : ProcessingConfig) (r : Except String String)
    (q : Except String (List String)) (s : SupervisorState) :
    ((analyze_content cfg r q s).error_message.isSome →
      (analyze_content cfg r q s).next_agent = some "end") ∧
    ((analyze_content cfg r q s).final_blog.isSome →
      (analyze_content cfg r q s).next_agent = some "end") ∧
    ((analyze_content cfg r q s).error_message = none ∨
      (analyze_content cfg r q s).final_blog = none) := by
  cases r with
  | error e => simp only [analyze_content]; split_ifs <;> simp
  | ok kw =>
    cases q with
    | error e => simp only [analyze_content]; split_ifs <;> simp
    | ok results => simp only [analyze_content]; split_ifs <;> simp

/-- Writer updates obey the same discipline. -/
theorem writer_guard (cfg : ProcessingConfig) (r : Except String String)
    (s : SupervisorState) :
    ((write_blog cfg r s).error_message.isSome →
      (write_blog cfg r s).next_agent = some "end") ∧
    ((write_blog cfg r s).final_blog.isSome →
      (write_blog cfg r s).next_agent = some "end") ∧
    ((write_blog cfg r s).error_message = none ∨
      (write_blog cfg r s).final_blog = none) := by
  cases r with
  | error e => simp only [write_blog]; split_ifs <;> simp
  | ok blog => simp only [write_blog]; split_ifs <;> simp

/-- Any node update obeys the discipline. -/
theorem nodeUpdate_guard (cfg : ProcessingConfig) (o : Oracle) (i : Nat)
    (node : String) (s : SupervisorState) :
    ((nodeUpdate cfg o i node s).error_message.isSome →
      (nodeUpdate cfg o i node s).next_agent = some "end") ∧
    ((nodeUpdate cfg o i node s).final_blog.isSome →
      (nodeUpdate cfg o i node s).next_agent = some "end") ∧
    ((nodeUpdate cfg o i node s).error_message = none ∨
      (nodeUpdate cfg o i node s).final_blog = none) := by
  unfold nodeUpdate
  split_ifs
  · exact supervisor_guard _ _
  · exact transcriptor_guard _ _
  · exact analyzer_guard _ _ _ _
  · exact writer_guard _ _ _
  · simp

/-- `_router` sends any state whose `next_agent` is `end` to END. -/
theorem router_end (s : SupervisorState) (h : s.next_agent = "end") :
    _router s = "__end__" := by
  simp [_router, h]

/-! ### Helper lemmas: the orchestrator loop -/

/-- Loop invariant: starting a node with no error and no blog, the state the
loop returns never holds a non-empty blog and a non-empty error together. -/
theorem runGraph_no_both (cfg : ProcessingConfig) (o : Oracle) :
    ∀ (fuel i : Nat) (node : String) (s t : SupervisorState),
      s.error_message = "" → s.final_blog = "" →
      runGraph cfg o fuel i node s = Except.ok t →
      t.final_blog = "" ∨ t.error_message = "" := by
  intro fuel
  induction fuel with
  | zero => intro i node s t _ _ h; simp [runGraph] at h
  | succ n ih =>
    intro i node s t herr hfin h
    simp only [runGraph] at h
    by_cases hr : _router (applyUpdate s (nodeUpdate cfg o i node s)) = "__end__"
    · rw [if_pos hr] at h
      have ht : applyUpdate s (nodeUpdate cfg o i node s) = t := by
        simpa using h
      subst ht
      rcases (nodeUpdate_guard cfg o i node s).2.2 with hE | hF
      · right; simp [applyUpdate, hE, herr]
      · left; simp [applyUpdate, hF, hfin]
    · rw [if_neg hr] at h
      have hE : (nodeUpdate cfg o i node s).error_message = none := by
        rcases hopt : (nodeUpdate cfg o i node s).error_message with _ | e
        · rfl
        · exfalso
          have hnext := (nodeUpdate_guard cfg o i node s).1 (by simp [hopt])
          exact hr (router_end _ (by simp [applyUpdate, hnext]))
      have hF : (nodeUpdate cfg o i node s).final_blog = none := by
        rcases hopt : (nodeUpdate cfg o i node s).final_blog with _ | b
        · rfl
        · exfalso
          have hnext := (nodeUpdate_guard cfg o i node s).2.1 (by simp [hopt])
          exact hr (router_end _ (by simp [applyUpdate, hnext]))
      exact ih (i + 1) (_router (applyUpdate s (nodeUpdate cfg o i node s)))
        (applyUpdate s (nodeUpdate cfg o i node s)) t
        (by simp [applyUpdate, hE, herr]) (by simp [applyUpdate, hF, hfin]) h

/-- The loop either returns a state or raises the recursion-limit error;
nothing else escapes it. -/
theorem runGraph_cases (cfg : ProcessingConfig) (o : Oracle) :
    ∀ (fuel i : Nat) (node : String) (s : SupervisorState),
      runGraph cfg o fuel i node s = Except.error graphRecursionMsg ∨
      ∃ t, runGraph cfg o fuel i node s = Except.ok t := by
  intro fuel
  induction fuel with
  | zero => intro i node s; left; rfl
  | succ n ih =>
    intro i node s
    simp only [runGraph]
    by_cases hr : _router (applyUpdate s (nodeUpdate cfg o i node s)) = "__end__"
    · rw [if_pos hr]; right; exact ⟨_, rfl⟩
    · rw [if_neg hr]; exact ih _ _ _

/-! ### Helper lemmas: particular branches -/

/-- With no blog yet, an empty transcript, and an advisory text free of
the substring `done`, the supervisor picks the transcriptor, whatever the
rest of the advisory text says. -/
theorem supervisor_routes_transcriptor (dec : String) (s : SupervisorState)
    (hfin : s.final_blog = "") (htr : s.transcript_data = "")
    (hdone : strIn "done" (pyLower (pyStrip dec)) = false) :
    decide_next_agent (Except.ok dec) s =
      { message := some "Supervisor: Assigning Transcriptor to extract video transcript"
        next_agent := some "transcriptor"
        current_task := some (s.messages.getLastD "No Task") } := by
  simp [decide_next_agent, hfin, htr, hdone, pyBool]

/-- A run of the transcriptor on an empty chunk list, from a state whose
URL passes validation, produces exactly the no-transcript error update. -/
theorem extract_transcript_empty (s : SupervisorState)
    (h : validate_youtube_url s.input_url = true) :
    extract_transcript (Except.ok []) s =
      { message := some "Transcriptor: No transcript found for this video"
        error_message := some "No transcript found for this video"
        next_agent := some "end"
        transcript_data := none } := by
  simp only [extract_transcript, h]
  rfl

/-! ### Claim C1 -/

/-- C1 (amended): when the supervisor LLM call succeeds, its advisory text
does not contain the substring `done`, and the state has no error, no blog
and an empty transcript, the supervisor routes to the transcriptor,
regardless of every other field and of any agent name in the advisory
text. The original claim fails because an advisory text containing `done`
overrides the missing-field rules. -/
theorem c1_state_routing (dec : String) (s : SupervisorState)
    (herr : s.error_message = "") (hfin : s.final_blog = "")
    (htr : s.transcript_data = "")
    (hdone : strIn "done" (pyLower (pyStrip dec)) = false) :
    (decide_next_agent (Except.ok dec) s).next_agent = some "transcriptor" := by
  rw [supervisor_routes_transcriptor dec s hfin htr hdone]

/-- C1 witness: a fresh state and the advisory text `analyzer` still route
to the transcriptor, because the transcript is missing. -/
theorem c1_state_routing_witness :
    (decide_next_agent (Except.ok "analyzer")
      (initState "u" "t")).next_agent = some "transcriptor" :=
  c1_state_routing "analyzer" (initState "u" "t") rfl rfl rfl (by decide)

/-- C1 counterexample: on a fresh state (no error, no blog, empty
transcript) the advisory text `done` makes the supervisor answer `end`,
not `transcriptor` — routing is not independent of the advisory text. -/
theorem c1_advisory_done_cex :
    (initState "https://www.youtube.com/watch?v=abc" "T").error_message = "" ∧
    (initState "https://www.youtube.com/watch?v=abc" "T").final_blog = "" ∧
    (initState "https://www.youtube.com/watch?v=abc" "T").transcript_data = "" ∧
    (decide_next_agent (Except.ok "done")
      (initState "https://www.youtube.com/watch?v=abc" "T")).next_agent = some "end" ∧
    ((decide_next_agent (Except.ok "done")
      (initState "https://www.youtube.com/watch?v=abc" "T")).next_agent
        == some "transcriptor") = false := by decide

/-! ### Claim C2 -/

/-- C2 (amended): the router keys on `next_agent`, not on `errorMessage`:
it returns END exactly for `next_agent = end` (or `task_complete`), and
every agent update that sets `errorMessage` also sets `next_agent = end`
in the same partial update, so error states produced by any agent are
routed to END on the next edge. -/
theorem c2_error_routing :
    (∀ s : SupervisorState, s.next_agent = "end" → _router s = "__end__") ∧
    (∀ (r : Except String String) (s : SupervisorState),
      (decide_next_agent r s).error_message.isSome →
      (decide_next_agent r s).next_agent = some "end") ∧
    (∀ (r : Except String (List String)) (s : SupervisorState),
      (extract_transcript r s).error_message.isSome →
      (extract_transcript r s).next_agent = some "end") ∧
    (∀ (cfg : ProcessingConfig) (r : Except String String)
      (q : Except String (List String)) (s : SupervisorState),
      (analyze_content cfg r q s).error_message.isSome →
      (analyze_content cfg r q s).next_agent = some "end") ∧
    (∀ (cfg : ProcessingConfig) (r : Except String String) (s : SupervisorState),
      (write_blog cfg r s).error_message.isSome →
      (write_blog cfg r s).next_agent = some "end") :=
  ⟨router_end, fun r s => (supervisor_guard r s).1,
   fun r s => (transcriptor_guard r s).1,
   fun cfg r q s => (analyzer_guard cfg r q s).1,
   fun cfg r s => (writer_guard cfg r s).1⟩

/-- A state carrying an error but a stale `next_agent`. -/
def errorStateCex : SupervisorState :=
  { error_message := "boom", next_agent := "transcriptor" }

/-- C2 counterexample: with `errorMessage` set but `next_agent` naming the
transcriptor, the router follows `next_agent` and does not return END. -/
theorem c2_error_routing_cex :
    errorStateCex.error_message = "boom" ∧
    _router errorStateCex = "transcriptor" ∧
    (_router errorStateCex == "__end__") = false := by decide

/-! ### Claim C3 -/

/-- C3 (amended): the state `process_video` hands back never carries a
non-empty `final_blog` and a non-empty `error_message` together; a state
carrying neither is however possible, so only the `never both` half of the
claim holds. -/
theorem c3_not_both (cfg : ProcessingConfig) (o : Oracle) (url task : String) :
    (process_video cfg o url task).final_blog = "" ∨
    (process_video cfg o url task).error_message = "" := by
  rcases hcase : runGraph cfg o recursionLimit 0 "supervisor" (initState url task)
    with e | t
  · unfold process_video
    rw [hcase]
    left
    rfl
  · unfold process_video
    rw [hcase]
    exact runGraph_no_both cfg o recursionLimit 0 "supervisor"
      (initState url task) t rfl rfl hcase

/-- The run in which the supervisor LLM answers `done` at the first turn. -/
def c3run : SupervisorState :=
  process_video defaultProcessing (mkOracle "done" [] [] "")
    "https://www.youtube.com/watch?v=abc" "T3"

/-- C3 counterexample: the advisory answer `done` at the very first
supervisor turn ends the loop with `final_blog` and `error_message` both
empty — the caller receives neither a blog nor an error. -/
theorem c3_neither_cex :
    c3run.error_message = "" ∧ c3run.final_blog = "" ∧
    c3run.messages = ["T3", "Supervisor: All tasks completed successfully! 🎉"] := by
  decide

/-! ### Claim C4 -/

/-- C4 (amended): every run of `process_video` either ends with a state the
loop produced within the langgraph recursion limit of 25 super-steps, or
ends with `error_message` set to the caught `GraphRecursionError` text —
never an uncaught exception and never non-termination. The error text is
the langgraph recursion-limit message, not `workflow exceeded maximum
steps`. -/
theorem c4_cap (cfg : ProcessingConfig) (o : Oracle) (url task : String) :
    ((process_video cfg o url task).error_message = graphRecursionMsg ∧
     (process_video cfg o url task).final_blog = "") ∨
    ∃ t, runGraph cfg o recursionLimit 0 "supervisor" (initState url task) =
        Except.ok t ∧
      process_video cfg o url task = t := by
  rcases runGraph_cases cfg o recursionLimit 0 "supervisor" (initState url task)
    with h | ⟨t, h⟩
  · left
    unfold process_video
    rw [h]
    exact ⟨rfl, rfl⟩
  · right
    exact ⟨t, h, by unfold process_video; rw [h]⟩

/-- The run in which the supervisor LLM answers `transcriptor` forever, so
no accumulated field ever routes the loop to END. -/
def c4run : SupervisorState :=
  process_video defaultProcessing (mkOracle "transcriptor" ["hi"] [] "")
    "https://www.youtube.com/watch?v=abc" "T4"

/-- C4 counterexample: exceeding the cap surfaces the langgraph
recursion-limit text, not the error `workflow exceeded maximum steps`. -/
theorem c4_message_cex :
    c4run.error_message = graphRecursionMsg ∧
    (graphRecursionMsg == "workflow exceeded maximum steps") = false := by decide

/-! ### Claim C5 -/

/-- The run in which the transcript loader returns an empty chunk list. -/
def c5run : SupervisorState :=
  process_video defaultProcessing (mkOracle "" [] [] "")
    "https://www.youtube.com/watch?v=abc" "T5"

/-- C5 (amended): an empty chunk list makes the Transcript step set
`errorMessage` to exactly `No transcript found for this video` (not the
claimed `no transcript available`), leave `transcript` unset, and hand
`next_agent = end` to the router, which ends the loop at once; in the full
run the trace shows exactly one step invocation after the supervisor. -/
theorem c5_empty_transcript :
    (∀ s : SupervisorState, validate_youtube_url s.input_url = true →
      extract_transcript (Except.ok []) s =
        { message := some "Transcriptor: No transcript found for this video"
          error_message := some "No transcript found for this video"
          next_agent := some "end"
          transcript_data := none } ∧
      _router (applyUpdate s (extract_transcript (Except.ok []) s)) = "__end__") ∧
    c5run.error_message = "No transcript found for this video" ∧
    c5run.transcript_data = "" ∧
    c5run.final_blog = "" ∧
    c5run.messages = ["T5",
      "Supervisor: Assigning Transcriptor to extract video transcript",
      "Transcriptor: No transcript found for this video"] := by
  refine ⟨?_, by decide, by decide, by decide, by decide⟩
  intro s h
  have he := extract_transcript_empty s h
  refine ⟨he, ?_⟩
  rw [he]
  rfl

/-- C5 witness: the no-transcript branch at a concrete valid URL. -/
theorem c5_empty_transcript_witness :
    extract_transcript (Except.ok [])
        (initState "https://youtu.be/xyz" "W") =
      { message := some "Transcriptor: No transcript found for this video"
        error_message := some "No transcript found for this video"
        next_agent := some "end"
        transcript_data := none } :=
  (c5_empty_transcript.1 (initState "https://youtu.be/xyz" "W") (by decide)).1

/-- C5 counterexample: the error text the code sets differs from the
claimed `no transcript available`. -/
theorem c5_message_cex :
    (extract_transcript (Except.ok [])
      (initState "https://www.youtube.com/watch?v=abc" "T")).error_message
      = some "No transcript found for this video" ∧
    ((extract_transcript (Except.ok [])
      (initState "https://www.youtube.com/watch?v=abc" "T")).error_message
      == some "no transcript available") = false := by decide

/-! ### Claim C6 -/

/-- C6 (amended): `clean_text` collapses every whitespace run — newlines
included — to a single space and strips the ends; no newline survives into
its output, so blank-line separators between chunks are not preserved and
the triple-newline collapse never fires. -/
theorem c6_no_newlines (s : String) :
    (clean_text s).data.any (fun c => c == '\n') = false := by
  rw [List.any_eq_false]
  intro c hc
  by_cases hemp : s.data.isEmpty
  · unfold clean_text at hc
    rw [if_pos hemp] at hc
    simp at hc
  · unfold clean_text at hc
    rw [if_neg hemp] at hc
    have h1 : c ∈ collapse3NL (joinSpace (pyWords s.data)) := mem_stripList c _ hc
    have h2 : c ∈ joinSpace (pyWords s.data) := mem_collapse3NL c _ h1
    rcases mem_joinSpace _ c h2 with rfl | ⟨w, hw, hcw⟩
    · decide
    · have hws := pyWordsAux_no_ws s.data [] (by simp) w hw c hcw
      simp only [beq_iff_eq]
      rintro rfl
      exact absurd hws (by decide)

/-- C6 counterexample: three newlines between words come out as one space,
not as the claimed two newlines. -/
theorem c6_separator_cex :
    clean_text "a\n\n\nb" = "a b" ∧
    (clean_text "a\n\n\nb" == "a\n\nb") = false := by decide

/-! ### Claim C7 -/

/-- A fully successful run: valid URL, one transcript chunk, one search
result, a non-blank blog answer, and advisory texts naming no agent. -/
def c7run : SupervisorState :=
  process_video defaultProcessing
    (mkOracle "" ["hello world"] ["result one"] "My blog post")
    "https://www.youtube.com/watch?v=abc" "Create a blog from this video"

/-- C7: in a fully successful run the writer reads `current_task` after the
supervisor overwrote it with the last status message
(`Analyzer: Web research and analysis completed`), not with the
user-supplied instruction — the task field does not stay equal to the
instruction across iterations. -/
theorem c7_task_overwritten :
    c7run.final_blog = "My blog post" ∧
    c7run.error_message = "" ∧
    c7run.current_task = "Analyzer: Web research and analysis completed" ∧
    (c7run.current_task == "Create a blog from this video") = false := by decide

/-! ### Claim C8 -/

/-- C8 (amended): the CLI front end rejects a malformed URL before any
workflow exists, but the core `process_video` performs no pre-loop
validation: the loop starts, and the Transcript step writes the
invalid-URL failure into the state's `errorMessage`. -/
theorem c8_cli_vs_core :
    validate_input "not-a-url" = false ∧
    (process_video defaultProcessing (mkOracle "" [] [] "") "not-a-url"
      "Create a blog from this video").error_message
      = "Invalid YouTube URL: not-a-url" := by decide

/-- The core run on a malformed URL. -/
def c8run : SupervisorState :=
  process_video defaultProcessing (mkOracle "" [] [] "") "not-a-url" "T8"

/-- C8 counterexample: calling `process_video` on `not-a-url` creates a
state, runs the supervisor and the transcriptor, and stores the validation
failure in `errorMessage` — the failure does enter State. -/
theorem c8_enters_state_cex :
    c8run.error_message = "Invalid YouTube URL: not-a-url" ∧
    c8run.messages = ["T8",
      "Supervisor: Assigning Transcriptor to extract video transcript",
      "Transcriptor: Invalid YouTube URL: not-a-url"] := by decide

/-! ### Claim C9 -/

/-- C9: the writer truncation is a silent deterministic cut to the first
`max_transcript_length` characters (10000 by default): shorter or
exactly-at-cap transcripts pass unchanged, longer ones are cut to exactly
the cap. -/
theorem c9_truncation (cfg : ProcessingConfig) (t : String) :
    defaultProcessing.max_transcript_length = 10000 ∧
    (t.data.length ≤ cfg.max_transcript_length →
      writerTruncate cfg.max_transcript_length t = t) ∧
    (cfg.max_transcript_length < t.data.length →
      (writerTruncate cfg.max_transcript_length t).data =
        t.data.take cfg.max_transcript_length ∧
      (writerTruncate cfg.max_transcript_length t).data.length =
        cfg.max_transcript_length) := by
  refine ⟨rfl, ?_, ?_⟩
  · intro h
    unfold writerTruncate
    rw [if_neg (by omega)]
  · intro h
    unfold writerTruncate
    rw [if_pos (by omega)]
    refine ⟨rfl, ?_⟩
    simp only [List.length_take]
    omega

/-! ### Claim C10 -/

/-- C10: `validate_youtube_url` accepts exactly the URLs whose parsed
scheme is http or https, whose parsed netloc is one of the three listed
hosts, and which contain one of the two marker substrings; in particular
`m.youtube.com` is rejected. -/
theorem c10_validate_spec :
    (∀ url : String, validate_youtube_url url = true ↔
      ((urlparse_scheme url = "http" ∨ urlparse_scheme url = "https") ∧
       (urlparse_netloc url = "www.youtube.com" ∨
        urlparse_netloc url = "youtube.com" ∨
        urlparse_netloc url = "youtu.be") ∧
       (strIn "watch?v=" url = true ∨ strIn "youtu.be/" url = true))) ∧
    validate_youtube_url "https://m.youtube.com/watch?v=abc" = false ∧
    validate_youtube_url "https://www.youtube.com/watch?v=abc" = true := by
  refine ⟨?_, by decide, by decide⟩
  intro url
  simp only [validate_youtube_url, Bool.and_eq_true, Bool.or_eq_true, beq_iff_eq]
  tauto

end YTBlog
